import Mathlib

/-!
A verification development for the real-estate wholesaling automation
program (`advanced_real_estate_wholesaling.py`).  The data model and the
operations are embedded shallowly: Python strings become `String`, Python
floats obtained by stripping and parsing price-like text become `Option ℚ`
(the stripped residue only ever contains digits and dots, so the value is an
exact decimal), Python ints become `ℤ`, and the SQLite tables become Lean
lists of records with the insert/update statements translated to pure
functions on those lists.  Case folding is modelled on ASCII letters, as by
`Char.toLower`.
-/

namespace Wholesaling

/-- Digits-to-number accumulator: the value of a digit string read left to
right, as `int`/`float` do on a residue of digits. -/
def digitsToNat (cs : List Char) : ℕ :=
  cs.foldl (fun a c => a * 10 + (c.toNat - 48)) 0

/-- Residue of `re.sub(r'[^\d.]', '', s)`: keep only digits and dots. -/
def stripToDigitsDots (s : String) : List Char :=
  s.data.filter (fun c => c.isDigit || c == '.')

/-- Residue of `re.sub(r'[^\d]', '', s)`: keep only digits. -/
def stripToDigits (s : String) : List Char :=
  s.data.filter (fun c => c.isDigit)

/-- `float(residue)` on a residue made of digits and dots: Python accepts it
exactly when there is at least one digit and at most one dot, and then the
value is the denoted decimal (the integer digits, plus the fraction digits
scaled down by their length when a dot is present); otherwise `ValueError`
(modelled as `none`). -/
def parseDecimalResidue (cs : List Char) : Option ℚ :=
  if cs.any (fun c => c.isDigit) && cs.count '.' ≤ 1 then
    let intPart := cs.takeWhile (fun c => c ≠ '.')
    let fracPart := (cs.dropWhile (fun c => c ≠ '.')).drop 1
    if fracPart.isEmpty then some (digitsToNat intPart : ℚ)
    else some ((digitsToNat intPart : ℚ) + (digitsToNat fracPart : ℚ) / 10 ^ fracPart.length)
  else
    none

/-- `int(residue)` on a residue made of digits: fails on the empty string. -/
def parseIntResidue (cs : List Char) : Option ℕ :=
  if cs.isEmpty then none else some (digitsToNat cs)

/-- `Property` dataclass (fields as in the source; `property_id` is the
content-derived identifier computed at construction, carried here as data). -/
structure Property where
  address : String
  price : String
  link : String
  date : String
  contacted : String := "No"
  interested : String := "Unknown"
  property_type : String := "Unknown"
  bedrooms : String := "N/A"
  bathrooms : String := "N/A"
  sqft : String := "N/A"
  year_built : String := "N/A"
  source : String := "Unknown"
  city : String := "Unknown"
  state : String := "Unknown"
  zipcode : String := "N/A"
  estimated_repair_cost : String := "N/A"
  arv : String := "N/A"
  days_on_market : String := "N/A"
  property_id : String := ""
  deriving DecidableEq, Repr

/-- `Property.get_price_numeric`: strip all characters except digits and
dots from the price text, then `float(...)` if the residue is nonempty,
returning `None` on a parse failure. -/
def Property.get_price_numeric (p : Property) : Option ℚ :=
  parseDecimalResidue (stripToDigitsDots p.price)

/-- `Property.is_valid`: address present and not `"N/A"`, price present and
not `"N/A"`, link present and not `"#"`. -/
def Property.is_valid (p : Property) : Bool :=
  if p.address = "" ∨ p.address = "N/A" then false
  else if p.price = "" ∨ p.price = "N/A" then false
  else if p.link = "" ∨ p.link = "#" then false
  else true

/-- `Buyer` dataclass (fields as in the source; `buyer_id` is the derived
identifier computed at construction, carried here as data). -/
structure Buyer where
  name : String
  email : String
  max_price : ℤ
  min_price : ℤ := 0
  active : String := "Yes"
  preferred_areas : List String := []
  min_bedrooms : ℤ := 0
  min_bathrooms : ℤ := 0
  min_sqft : ℤ := 0
  property_types : List String := []
  buyer_id : String := ""
  deriving DecidableEq, Repr

/-- Python `needle.lower() in hay.lower()` on char lists: `startsAt` is the
prefix test, `containsChars` scans every suffix. -/
def startsAt : List Char → List Char → Bool
  | _, [] => true
  | [], _ :: _ => false
  | c :: cs, d :: ds => c == d && startsAt cs ds

/-- Substring test on char lists (Python `in` for strings). -/
def containsChars (hay needle : List Char) : Bool :=
  startsAt hay needle ||
    match hay with
    | [] => false
    | _ :: t => containsChars t needle

/-- ASCII lowercasing of a char list, as `str.lower` on ASCII text. -/
def toLowerChars (cs : List Char) : List Char :=
  cs.map Char.toLower

/-- Case-insensitive substring test, as `needle.lower() in hay.lower()`. -/
def lowerIn (needle hay : String) : Bool :=
  containsChars (toLowerChars hay.data) (toLowerChars needle.data)

/-- The `location_match` expression of `Buyer.matches_property`: some
preferred area appears case-insensitively in `"{city} {state}"` or in the
address. -/
def locationMatch (b : Buyer) (p : Property) : Bool :=
  b.preferred_areas.any (fun area =>
    lowerIn area (p.city ++ " " ++ p.state) || lowerIn area p.address)

/-- The property-type block of `Buyer.matches_property`: exact membership in
a declared non-empty type list is worth 20, no declared preference 10. -/
def typePoints (b : Buyer) (p : Property) : ℕ :=
  if b.property_types ≠ [] then
    if p.property_type ∈ b.property_types then 20 else 0
  else 10

/-- The bedroom block: strip to digits, `int(...)`; at least the buyer
minimum is worth 15, below it 0, an unparsable field 5. -/
def bedPoints (b : Buyer) (p : Property) : ℕ :=
  match parseIntResidue (stripToDigits p.bedrooms) with
  | some beds => if (beds : ℤ) ≥ b.min_bedrooms then 15 else 0
  | none => 5

/-- The bathroom block: strip to digits and dots, `float(...)`; at least the
buyer minimum is worth 15, below it 0, an unparsable field 5. -/
def bathPoints (b : Buyer) (p : Property) : ℕ :=
  match parseDecimalResidue (stripToDigitsDots p.bathrooms) with
  | some baths => if baths ≥ (b.min_bathrooms : ℚ) then 15 else 0
  | none => 5

/-- The square-footage block: strip to digits, `int(...)`; at least the buyer
minimum is worth 10, below it 0, an unparsable field 5. -/
def sqftPoints (b : Buyer) (p : Property) : ℕ :=
  match parseIntResidue (stripToDigits p.sqft) with
  | some sqft => if (sqft : ℤ) ≥ b.min_sqft then 10 else 0
  | none => 5

/-- `Buyer.matches_property`.  Inactive buyers are rejected outright.  The
price gate is `if not price or price > self.max_price or price < self.min_price`,
where `not price` is true for `None` and for the float `0.0`.  A declared
area preference is a hard filter worth 30 on success; no preference is worth
10.  The remaining criteria accumulate `typePoints`, `bedPoints`,
`bathPoints` and `sqftPoints`, and the final score is capped at 100. -/
def Buyer.matches_property (b : Buyer) (p : Property) : Bool × ℕ :=
  if b.active ≠ "Yes" then (false, 0)
  else
    match p.get_price_numeric with
    | none => (false, 0)
    | some price =>
      if price = 0 ∨ price > (b.max_price : ℚ) ∨ price < (b.min_price : ℚ) then
        (false, 0)
      else if b.preferred_areas ≠ [] then
        if locationMatch b p then
          (true, min (30 + typePoints b p + bedPoints b p + bathPoints b p + sqftPoints b p) 100)
        else (false, 0)
      else
        (true, min (10 + typePoints b p + bedPoints b p + bathPoints b p + sqftPoints b p) 100)

/-- A row of the `property_matches` table: `(property_id, buyer_id)` carries
a `UNIQUE` constraint, `match_score` is an integer and `notified` defaults to
`"No"`.  The autoincrement `match_id` and timestamp play no role in any
operation and are omitted. -/
structure MatchRecord where
  property_id : String
  buyer_id : String
  match_score : ℤ
  notified : String := "No"
  deriving DecidableEq, Repr

/-- Whether the `property_matches` table already holds a row for the given
`(property_id, buyer_id)` pair. -/
def pairPresent (store : List MatchRecord) (pid bid : String) : Bool :=
  store.any (fun r => r.property_id == pid && r.buyer_id == bid)

/-- Number of rows stored for a given `(property_id, buyer_id)` pair. -/
def pairCount (store : List MatchRecord) (pid bid : String) : ℕ :=
  (store.filter (fun r => r.property_id == pid && r.buyer_id == bid)).length

/-- `DatabaseManager.save_match`: `INSERT OR IGNORE INTO property_matches`
with a `UNIQUE(property_id, buyer_id)` constraint — the row is inserted only
when the pair is absent, the call is a silent no-op otherwise, and the
method returns `True` either way (`False` only on an exception, outside this
model). -/
def save_match (store : List MatchRecord) (pid bid : String) (score : ℤ) :
    List MatchRecord × Bool :=
  if pairPresent store pid bid then (store, true)
  else (store ++ [{ property_id := pid, buyer_id := bid, match_score := score }], true)

/-- Number of rows of the `properties` table stored under a given
`property_id`. -/
def idCount (store : List Property) (pid : String) : ℕ :=
  (store.filter (fun r => r.property_id == pid)).length

/-- The effect of the `UPDATE properties SET ... WHERE property_id = ?`
statement on one row: a row whose identifier matches receives every column
of `prop` except `property_id` (which the `SET` clause omits); any other row
is untouched. -/
def updateRow (prop r : Property) : Property :=
  if r.property_id == prop.property_id then
    { prop with property_id := r.property_id }
  else r

/-- `DatabaseManager.save_property`: if a row with the property's identifier
exists, `UPDATE` every column except `property_id` on the rows with that
identifier; otherwise `INSERT` the new row.  Returns `True` in both cases
(`False` only on an exception, outside this model). -/
def save_property (store : List Property) (prop : Property) :
    List Property × Bool :=
  if store.any (fun r => r.property_id == prop.property_id) then
    (store.map (updateRow prop), true)
  else (store ++ [prop], true)

/-- `AdvancedRealEstateBot.send_notifications`, restricted to its effect on
the `property_matches` store.  The method iterates over the buyers that have
matches, attempts one delivery per buyer (counting successes; a failed
delivery is caught and logged), and writes activity-log entries only: no
statement in it reads or updates `property_matches`, so that table is
returned unchanged.  `deliverOk` gives the success or failure of each
buyer's delivery attempt. -/
def send_notifications (matchStore : List MatchRecord) (buyerIds : List String)
    (deliverOk : String → Bool) : List MatchRecord × ℕ :=
  (matchStore, (buyerIds.filter deliverOk).length)

/-- `RateLimiter.wait_if_needed` (the body runs under the limiter's lock, so
calls are serialized; time is modelled in seconds as exact rationals).
Given the retained timestamps and the clock value `now` read on entry, the
call prunes timestamps older than one minute, and when at least
`requests_per_minute` remain it sleeps for `60 - (now - oldest)` seconds
(always positive for a pruned, nonempty list) and then resets the window to
empty; in every case it finally appends the stale `now` read on entry.
Returns the new retained list and the time at which the call returns (the
time the request is granted). -/
def wait_if_needed (requests_per_minute : ℕ) (requests : List ℚ) (now : ℚ) :
    List ℚ × ℚ :=
  let pruned := requests.filter (fun t => now - t < 60)
  if pruned.length ≥ requests_per_minute then
    let oldest := pruned.foldr min (pruned.headD 0)
    let wait := 60 - (now - oldest)
    if wait > 0 then ([] ++ [now], now + wait)
    else (pruned ++ [now], now)
  else (pruned ++ [now], now)

/-- Run a serialized sequence of `wait_if_needed` calls, the i-th entering
at clock value `nows[i]`; returns the list of grant (return) times. -/
def runCalls (requests_per_minute : ℕ) :
    List ℚ → List ℚ → List ℚ
  | _, [] => []
  | requests, now :: rest =>
    let step := wait_if_needed requests_per_minute requests now
    step.2 :: runCalls requests_per_minute step.1 rest

/-- `retry_on_failure` applied to a function whose successive invocations
are given by `f : ℕ → Except ε α` (`f i` is the outcome of invocation number
`i`; `.error` is a raised exception).  `retryAux maxR f fuel i` is the loop
`while retries < max_retries` with `i` the current value of `retries` and
`fuel = maxR - i` the remaining iterations: a successful call returns its
value, a failing call increments `retries` and re-raises once
`retries >= max_retries`.  The result is `none` when the loop exits without
returning (the final `return None`, reachable only when `max_retries ≤ 0`),
and is paired with the number of invocations performed. -/
def retryAux (maxR : ℕ) (f : ℕ → Except ε α) : ℕ → ℕ → Option (Except ε α) × ℕ
  | 0, i => (none, i)
  | fuel + 1, i =>
    match f i with
    | .ok a => (some (.ok a), i + 1)
    | .error e =>
      if i + 1 ≥ maxR then (some (.error e), i + 1)
      else retryAux maxR f fuel (i + 1)

/-- The wrapper produced by `retry_on_failure(max_retries)`: run the loop
from `retries = 0`. -/
def retry_on_failure (maxR : ℕ) (f : ℕ → Except ε α) : Option (Except ε α) × ℕ :=
  retryAux maxR f maxR 0

/-! Concrete instances used to exercise the model. -/

/-- The spec's scoring-example buyer. -/
def B4 : Buyer :=
  { name := "Jane Smith", email := "jane@example.com", max_price := 175000,
    min_price := 50000, preferred_areas := ["Kokomo"], min_bedrooms := 2,
    min_bathrooms := 1 }

/-- The spec's scoring-example listing (square footage left at the
unparsable default `"N/A"`). -/
def P4 : Property :=
  { address := "123 Main St, Kokomo, IN", price := "$150,000",
    link := "https://example.com", date := "2025-01-01", bedrooms := "3 bd",
    bathrooms := "2 ba", city := "Kokomo", state := "IN" }

/-- A buyer with `min_price = 0` and no other preferences. -/
def B2z : Buyer :=
  { name := "Zed", email := "zed@example.com", max_price := 150000,
    min_price := 0 }

/-- A listing priced exactly `$0`, with every validity field present. -/
def P2z : Property :=
  { address := "9 Free St", price := "$0", link := "https://example.com/0",
    date := "2025-01-01", city := "Kokomo", state := "IN" }

/-- A buyer capped at 150000 with otherwise permissive criteria. -/
def B2m : Buyer :=
  { name := "Max", email := "max@example.com", max_price := 150000,
    preferred_areas := ["Kokomo"], min_bedrooms := 0, min_bathrooms := 0 }

/-- A listing priced `$200,000` whose every other attribute satisfies
`B2m`. -/
def P2m : Property :=
  { address := "77 Kokomo Ave", price := "$200,000",
    link := "https://example.com/77", date := "2025-01-01",
    bedrooms := "4 bd", bathrooms := "3 ba", sqft := "2000 sqft",
    city := "Kokomo", state := "IN" }

/-- A listing whose link is the sentinel `"N/A"` (not `"#"`), with address
and price present. -/
def P3s : Property :=
  { address := "123 Main St", price := "$100,000", link := "N/A",
    date := "2025-01-01" }

/-- A buyer who prefers Kokomo. -/
def B5 : Buyer :=
  { name := "Loc", email := "loc@example.com", max_price := 175000,
    min_price := 0, preferred_areas := ["Kokomo"] }

/-- A buyer with no area preference. -/
def B5n : Buyer :=
  { name := "Any", email := "any@example.com", max_price := 175000,
    min_price := 0 }

/-- A listing in Indianapolis whose address does not mention Kokomo. -/
def P5far : Property :=
  { address := "456 Oak Ave", price := "$150,000",
    link := "https://example.com/456", date := "2025-01-01",
    city := "Indianapolis", state := "IN" }

/-- A stored match row for the pair `("L1", "B1")` with score 75, not yet
notified. -/
def M1 : MatchRecord :=
  { property_id := "L1", buyer_id := "B1", match_score := 75 }

/-- A listing used to exercise the property upsert. -/
def P7 : Property :=
  { address := "1 Upsert Way", price := "$80,000",
    link := "https://example.com/up", date := "2025-01-01",
    property_id := "pid7" }

/-- The invocation-outcome sequence of a function that raises once and then
returns 42. -/
def fOnce (i : ℕ) : Except String ℕ :=
  if i < 1 then Except.error "boom" else Except.ok 42

/-- The invocation-outcome sequence of a function that raises on every
call, with a distinct message per call. -/
def fAlways (i : ℕ) : Except String ℕ :=
  Except.error (toString i)

/-! Helper lemmas: evaluation rules for `Buyer.matches_property`. -/

/-- An inactive buyer is rejected outright. -/
theorem matches_property_of_inactive (b : Buyer) (p : Property)
    (h : b.active ≠ "Yes") : b.matches_property p = (false, 0) := by
  unfold Buyer.matches_property
  rw [if_pos h]

/-- An unparsable price is rejected outright. -/
theorem matches_property_of_none (b : Buyer) (p : Property)
    (h : p.get_price_numeric = none) : b.matches_property p = (false, 0) := by
  unfold Buyer.matches_property
  split
  · rfl
  · rw [h]

/-- Evaluation of `matches_property` for an active buyer once the price has
parsed: the zero/range gate, then the location filter, then the summed
criteria capped at 100. -/
theorem matches_property_of_some (b : Buyer) (p : Property) (v : ℚ)
    (hact : b.active = "Yes") (hv : p.get_price_numeric = some v) :
    b.matches_property p =
      if v = 0 ∨ v > (b.max_price : ℚ) ∨ v < (b.min_price : ℚ) then (false, 0)
      else if b.preferred_areas ≠ [] then
        if locationMatch b p then
          (true, min (30 + typePoints b p + bedPoints b p + bathPoints b p + sqftPoints b p) 100)
        else (false, 0)
      else
        (true, min (10 + typePoints b p + bedPoints b p + bathPoints b p + sqftPoints b p) 100) := by
  unfold Buyer.matches_property
  rw [if_neg (by simp [hact]), hv]

/-! Claim theorems. -/

/-- Claim C4: the buyer with `max_price` 175000, `min_price` 50000,
preferred area `"Kokomo"`, `min_bedrooms` 2, `min_bathrooms` 1, no
property-type preference and active status, evaluated against the listing
priced `"$150,000"` in Kokomo, IN with `"3 bd"`, `"2 ba"` and unparsable
square footage, qualifies with score exactly 75, decomposed as 30 for
location, 10 for the absent type preference, 15 for bedrooms, 15 for
bathrooms and 5 for the unparsable square footage. -/
theorem claim4_scoring_example :
    locationMatch B4 P4 = true ∧ typePoints B4 P4 = 10 ∧
    bedPoints B4 P4 = 15 ∧ bathPoints B4 P4 = 15 ∧ sqftPoints B4 P4 = 5 ∧
    B4.matches_property P4 = (true, 75) := by
  refine ⟨by decide, by decide, by decide, by decide, by decide, by decide⟩

/-- Claim C3, counterexample: the claim reads `is_valid(L)` as false whenever
any of address, price or link equals either sentinel (`"N/A"` or `"#"`), but
the code checks each field against one sentinel only; the listing `P3s`,
whose link is the string `"N/A"`, is accepted as valid. -/
theorem claim3_counterexample :
    P3s.link = "N/A" ∧ P3s.address ≠ "" ∧ P3s.price ≠ "" ∧
    P3s.is_valid = true := by
  refine ⟨rfl, by decide, by decide, by decide⟩

/-- Claim C3, amended: `is_valid(L)` returns false if and only if the
address is empty or `"N/A"`, or the price is empty or `"N/A"`, or the link
is empty or `"#"` — each field is compared against its own sentinel, so a
link equal to `"N/A"` or an address equal to `"#"` does not invalidate. -/
theorem claim3_is_valid_iff (p : Property) :
    p.is_valid = false ↔
      (p.address = "" ∨ p.address = "N/A") ∨
      (p.price = "" ∨ p.price = "N/A") ∨
      (p.link = "" ∨ p.link = "#") := by
  unfold Property.is_valid
  split
  · simp_all
  · split
    · simp_all
    · split
      · simp_all
      · simp_all

/-- Claim C2, counterexample: the claim asserts that a parsed price equal to
`min_price` passes the gate, in particular a price of 0 when `min_price` is
0; but the gate is `if not price or ...`, and Python's `not` is true for the
float `0.0`, so the listing priced `"$0"` is disqualified with score 0 by
the active, preference-free buyer `B2z` whose range is `[0, 150000]`. -/
theorem claim2_counterexample :
    P2z.get_price_numeric = some 0 ∧ B2z.min_price = 0 ∧
    B2z.max_price = 150000 ∧ B2z.active = "Yes" ∧
    B2z.preferred_areas = [] ∧ B2z.matches_property P2z = (false, 0) := by
  refine ⟨by decide, rfl, rfl, rfl, rfl, by decide⟩

/-- Claim C2, amended: the price gate disqualifies with score 0 exactly when
the listing price is unparsable, parses to 0 (Python float truthiness), or
lies outside the closed interval `[min_price, max_price]`; any parsed
nonzero price inside that inclusive range passes the gate (shown here for
an active buyer whose location filter is satisfied or absent); and a buyer
with `max_price` 150000 never qualifies against a listing priced
`"$200,000"` regardless of its other attributes. -/
theorem claim2_price_gate (b : Buyer) (p : Property) :
    (p.get_price_numeric = none → b.matches_property p = (false, 0)) ∧
    (∀ v : ℚ, p.get_price_numeric = some v →
      v = 0 ∨ (b.max_price : ℚ) < v ∨ v < (b.min_price : ℚ) →
      b.matches_property p = (false, 0)) ∧
    (∀ v : ℚ, b.active = "Yes" → p.get_price_numeric = some v → v ≠ 0 →
      (b.min_price : ℚ) ≤ v → v ≤ (b.max_price : ℚ) →
      (b.preferred_areas = [] ∨ locationMatch b p = true) →
      (b.matches_property p).1 = true) ∧
    (b.max_price = 150000 → p.price = "$200,000" →
      b.matches_property p = (false, 0)) := by
  refine ⟨?_, ?_, ?_, ?_⟩
  · exact fun h => matches_property_of_none b p h
  · intro v hv hout
    by_cases hact : b.active = "Yes"
    · rw [matches_property_of_some b p v hact hv, if_pos hout]
    · exact matches_property_of_inactive b p hact
  · intro v hact hv hv0 hmin hmax hloc
    rw [matches_property_of_some b p v hact hv,
      if_neg (by push_neg; exact ⟨hv0, hmax, hmin⟩)]
    rcases hloc with hpa | hlm
    · rw [if_neg (by simp [hpa])]
    · by_cases hpa : b.preferred_areas = []
      · rw [if_neg (by simp [hpa])]
      · rw [if_pos hpa, if_pos hlm]
  · intro hcap hprice
    have hnum : p.get_price_numeric = some 200000 := by
      rw [Property.get_price_numeric, hprice]
      decide
    by_cases hact : b.active = "Yes"
    · rw [matches_property_of_some b p 200000 hact hnum, if_pos]
      exact Or.inr (Or.inl (by rw [hcap]; decide))
    · exact matches_property_of_inactive b p hact

/-- Claim C2, witness: the amended gate evaluated concretely — the `$0`
listing is disqualified by `B2z`, the in-range `$150,000` listing passes the
gate for the active buyer `B4` whose location filter is satisfied, and the
`$200,000` listing `P2m` is rejected by the capped buyer `B2m` although all
its other attributes fit. -/
theorem claim2_price_gate_witness :
    B2z.matches_property P2z = (false, 0) ∧
    (B4.matches_property P4).1 = true ∧
    B2m.matches_property P2m = (false, 0) := by
  refine ⟨?_, ?_, ?_⟩
  · exact (claim2_price_gate B2z P2z).2.1 0 (by decide) (Or.inl rfl)
  · exact (claim2_price_gate B4 P4).2.2.1 150000 rfl (by decide) (by decide)
      (by decide) (by decide) (Or.inr (by decide))
  · exact (claim2_price_gate B2m P2m).2.2.2 rfl rfl

/-- Claim C5: for an active buyer with a declared (non-empty) list of
preferred areas and a listing that passes the price gate, a case-insensitive
substring hit of some preferred area in the "city state" string or the
address yields qualification with 30 location points added to the remaining
criteria; no hit is an immediate disqualification with score 0 regardless of
the remaining criteria; and a buyer with no preferred areas gets 10
unconditional points and is never disqualified on location. -/
theorem claim5_location_rule (b : Buyer) (p : Property) (v : ℚ)
    (hact : b.active = "Yes") (hv : p.get_price_numeric = some v)
    (hv0 : v ≠ 0) (hmin : (b.min_price : ℚ) ≤ v)
    (hmax : v ≤ (b.max_price : ℚ)) :
    (b.preferred_areas ≠ [] → locationMatch b p = true →
      b.matches_property p =
        (true, min (30 + typePoints b p + bedPoints b p + bathPoints b p + sqftPoints b p) 100)) ∧
    (b.preferred_areas ≠ [] → locationMatch b p = false →
      b.matches_property p = (false, 0)) ∧
    (b.preferred_areas = [] →
      b.matches_property p =
        (true, min (10 + typePoints b p + bedPoints b p + bathPoints b p + sqftPoints b p) 100)) := by
  rw [matches_property_of_some b p v hact hv,
    if_neg (by push_neg; exact ⟨hv0, hmax, hmin⟩)]
  refine ⟨?_, ?_, ?_⟩
  · intro hpa hlm
    rw [if_pos hpa, if_pos hlm]
  · intro hpa hlm
    rw [if_pos hpa, if_neg (by simp [hlm])]
  · intro hpa
    rw [if_neg (by simp [hpa])]

/-- Claim C5, witness: the Kokomo buyer `B5` matches the Kokomo listing `P4`
scoring 30 location points, is disqualified outright by the Indianapolis
listing `P5far`, and the preference-free buyer `B5n` qualifies against
`P5far` with the 10 unconditional location points. -/
theorem claim5_location_rule_witness :
    B5.matches_property P4 = (true, 75) ∧
    B5.matches_property P5far = (false, 0) ∧
    B5n.matches_property P5far = (true, 35) := by
  refine ⟨?_, ?_, ?_⟩
  · exact ((claim5_location_rule B5 P4 150000 rfl (by decide) (by decide)
      (by decide) (by decide)).1 (by decide) (by decide)).trans (by decide)
  · exact (claim5_location_rule B5 P5far 150000 rfl (by decide) (by decide)
      (by decide) (by decide)).2.1 (by decide) (by decide)
  · exact ((claim5_location_rule B5n P5far 150000 rfl (by decide) (by decide)
      (by decide) (by decide)).2.2 rfl).trans (by decide)

/-! Helper lemmas: bounds on the per-criterion points. -/

/-- The property-type block awards at most 20 points. -/
theorem typePoints_le (b : Buyer) (p : Property) : typePoints b p ≤ 20 := by
  unfold typePoints
  split
  · split <;> omega
  · omega

/-- The bedroom block awards at most 15 points. -/
theorem bedPoints_le (b : Buyer) (p : Property) : bedPoints b p ≤ 15 := by
  unfold bedPoints
  split
  · split <;> omega
  · omega

/-- The bathroom block awards at most 15 points. -/
theorem bathPoints_le (b : Buyer) (p : Property) : bathPoints b p ≤ 15 := by
  unfold bathPoints
  split
  · split <;> omega
  · omega

/-- The square-footage block awards at most 10 points. -/
theorem sqftPoints_le (b : Buyer) (p : Property) : sqftPoints b p ≤ 10 := by
  unfold sqftPoints
  split
  · split <;> omega
  · omega

/-- Claim C10: every returned score is at most 90; a qualifying evaluation
scores at least 10; and the final `min(score, 100)` cap never changes the
sum of awarded points — the returned score of a qualifying evaluation is
exactly the location points (30 with a declared preference, 10 without)
plus the type, bedroom, bathroom and square-footage points, uncapped. -/
theorem claim10_score_bounds (b : Buyer) (p : Property) :
    (b.matches_property p).2 ≤ 90 ∧
    ((b.matches_property p).1 = true →
      10 ≤ (b.matches_property p).2 ∧
      (b.matches_property p).2 =
        (if b.preferred_areas ≠ [] then 30 else 10) + typePoints b p +
          bedPoints b p + bathPoints b p + sqftPoints b p) := by
  have ht := typePoints_le b p
  have hbd := bedPoints_le b p
  have hba := bathPoints_le b p
  have hsq := sqftPoints_le b p
  by_cases hact : b.active = "Yes"
  · rcases hv : p.get_price_numeric with _ | v
    · rw [matches_property_of_none b p hv]
      exact ⟨Nat.zero_le 90, by simp⟩
    · rw [matches_property_of_some b p v hact hv]
      by_cases h1 : v = 0 ∨ v > (b.max_price : ℚ) ∨ v < (b.min_price : ℚ)
      · rw [if_pos h1]
        exact ⟨Nat.zero_le 90, by simp⟩
      · rw [if_neg h1]
        by_cases h2 : b.preferred_areas ≠ []
        · rw [if_pos h2]
          by_cases h3 : locationMatch b p = true
          · rw [if_pos h3]
            have hmin :
                min (30 + typePoints b p + bedPoints b p + bathPoints b p + sqftPoints b p) 100
                  = 30 + typePoints b p + bedPoints b p + bathPoints b p + sqftPoints b p :=
              min_eq_left (by omega)
            refine ⟨?_, fun _ => ⟨?_, ?_⟩⟩
            · show min (30 + typePoints b p + bedPoints b p + bathPoints b p + sqftPoints b p) 100 ≤ 90
              rw [hmin]; omega
            · show 10 ≤ min (30 + typePoints b p + bedPoints b p + bathPoints b p + sqftPoints b p) 100
              rw [hmin]; omega
            · show min (30 + typePoints b p + bedPoints b p + bathPoints b p + sqftPoints b p) 100 = _
              rw [hmin, if_pos h2]
          · rw [if_neg h3]
            exact ⟨Nat.zero_le 90, by simp⟩
        · rw [if_neg h2]
          have hmin :
              min (10 + typePoints b p + bedPoints b p + bathPoints b p + sqftPoints b p) 100
                = 10 + typePoints b p + bedPoints b p + bathPoints b p + sqftPoints b p :=
            min_eq_left (by omega)
          refine ⟨?_, fun _ => ⟨?_, ?_⟩⟩
          · show min (10 + typePoints b p + bedPoints b p + bathPoints b p + sqftPoints b p) 100 ≤ 90
            rw [hmin]; omega
          · show 10 ≤ min (10 + typePoints b p + bedPoints b p + bathPoints b p + sqftPoints b p) 100
            rw [hmin]; omega
          · show min (10 + typePoints b p + bedPoints b p + bathPoints b p + sqftPoints b p) 100 = _
            rw [hmin, if_neg h2]
  · rw [matches_property_of_inactive b p hact]
    exact ⟨Nat.zero_le 90, by simp⟩

/-- Claim C10, witness: the bounds and the uncapped-sum identity evaluated
on the qualifying example pair `(B4, P4)`. -/
theorem claim10_score_bounds_witness :
    (B4.matches_property P4).2 ≤ 90 ∧
    10 ≤ (B4.matches_property P4).2 ∧
    (B4.matches_property P4).2 =
      (if B4.preferred_areas ≠ [] then 30 else 10) + typePoints B4 P4 +
        bedPoints B4 P4 + bathPoints B4 P4 + sqftPoints B4 P4 := by
  refine ⟨(claim10_score_bounds B4 P4).1,
    ((claim10_score_bounds B4 P4).2 (by decide)).1,
    ((claim10_score_bounds B4 P4).2 (by decide)).2⟩

/-! Helper lemmas: filtering and membership counts. -/

/-- A list none of whose elements satisfy `q` filters to the empty list. -/
theorem filter_nil_of_any_false {α : Type} (q : α → Bool) (l : List α)
    (h : l.any q = false) : l.filter q = [] := by
  induction l with
  | nil => rfl
  | cons a t ih => simp_all [List.any_cons, List.filter_cons]

/-- A list some element of which satisfies `q` filters to a nonempty
list. -/
theorem one_le_length_filter {α : Type} (q : α → Bool) (l : List α)
    (h : l.any q = true) : 1 ≤ (l.filter q).length := by
  rcases List.any_eq_true.mp h with ⟨x, hx, hq⟩
  have : x ∈ l.filter q := List.mem_filter.mpr ⟨hx, hq⟩
  exact List.length_pos.mpr (List.ne_nil_of_mem this)

/-- Conversely, a nonempty filtered list witnesses `any`. -/
theorem any_of_filter_length {α : Type} (q : α → Bool) (l : List α)
    (h : 1 ≤ (l.filter q).length) : l.any q = true := by
  rcases List.exists_mem_of_length_pos h with ⟨x, hx⟩
  have hm := List.mem_filter.mp hx
  exact List.any_eq_true.mpr ⟨x, hm.1, hm.2⟩

/-- Claim C6: when the `(pid, bid)` pair is absent, `save_match` inserts one
row carrying the offered score and reports success; a second call for the
same pair — here with a different score `s2` — reports success, leaves the
store exactly as it was (so the first stored score survives), and the
at-most-one-row-per-pair invariant is preserved by any call on any store
satisfying it. -/
theorem claim6_record_match (store store2 : List MatchRecord)
    (pid bid : String) (s1 s2 s3 : ℤ)
    (h1 : pairPresent store pid bid = false)
    (h2 : pairCount store2 pid bid ≤ 1) :
    (save_match store pid bid s1).2 = true ∧
    pairCount (save_match store pid bid s1).1 pid bid = 1 ∧
    ((save_match store pid bid s1).1.filter
        (fun r => r.property_id == pid && r.buyer_id == bid)).map
      (fun r => r.match_score) = [s1] ∧
    save_match (save_match store pid bid s1).1 pid bid s2 =
      ((save_match store pid bid s1).1, true) ∧
    pairCount (save_match store2 pid bid s3).1 pid bid ≤ 1 := by
  have hstep : save_match store pid bid s1 =
      (store ++ [{ property_id := pid, buyer_id := bid, match_score := s1 }], true) := by
    unfold save_match
    rw [if_neg (by simp [h1])]
  have hfil : store.filter (fun r => r.property_id == pid && r.buyer_id == bid) = [] :=
    filter_nil_of_any_false _ store h1
  have hfil1 : (save_match store pid bid s1).1.filter
      (fun r => r.property_id == pid && r.buyer_id == bid) =
      [{ property_id := pid, buyer_id := bid, match_score := s1 }] := by
    rw [hstep, List.filter_append, hfil]
    simp
  have hsave : ∀ (st : List MatchRecord) (s : ℤ),
      pairPresent st pid bid = true → save_match st pid bid s = (st, true) := by
    intro st s h
    unfold save_match
    rw [if_pos h]
  refine ⟨by rw [hstep], ?_, ?_, ?_, ?_⟩
  · rw [pairCount, hfil1]
    rfl
  · rw [hfil1]
    rfl
  · have hpres : pairPresent (save_match store pid bid s1).1 pid bid = true := by
      unfold pairPresent
      refine any_of_filter_length
        (fun r => r.property_id == pid && r.buyer_id == bid)
        (save_match store pid bid s1).1 ?_
      rw [hfil1]
      exact le_refl 1
    exact hsave _ s2 hpres
  · by_cases hp : pairPresent store2 pid bid = true
    · rw [hsave store2 s3 hp]
      exact h2
    · have hfalse : pairPresent store2 pid bid = false := by
        simpa using hp
      have hstep2 : save_match store2 pid bid s3 =
          (store2 ++ [{ property_id := pid, buyer_id := bid, match_score := s3 }], true) := by
        unfold save_match
        rw [if_neg (by simp [hfalse])]
      have hc0 := filter_nil_of_any_false
        (fun r => r.property_id == pid && r.buyer_id == bid) store2
        (by unfold pairPresent at hfalse; exact hfalse)
      rw [hstep2, pairCount, List.filter_append, hc0]
      simp

/-- Claim C6, witness: inserting the pair `("L1", "B1")` with score 75 into
the empty store and re-recording it with score 80 keeps a single row with
the original score. -/
theorem claim6_record_match_witness :
    (save_match [] "L1" "B1" 75).2 = true ∧
    pairCount (save_match [] "L1" "B1" 75).1 "L1" "B1" = 1 ∧
    ((save_match [] "L1" "B1" 75).1.filter
        (fun r => r.property_id == "L1" && r.buyer_id == "B1")).map
      (fun r => r.match_score) = [75] ∧
    save_match (save_match [] "L1" "B1" 75).1 "L1" "B1" 80 =
      ((save_match [] "L1" "B1" 75).1, true) ∧
    pairCount (save_match [] "L1" "B1" 80).1 "L1" "B1" ≤ 1 := by
  exact claim6_record_match [] [] "L1" "B1" 75 80 80 (by decide) (by decide)

/-! Helper lemmas: behaviour of the property-row update. -/

/-- The `UPDATE` never changes a row's identifier. -/
theorem updateRow_property_id (np r : Property) :
    (updateRow np r).property_id = r.property_id := by
  unfold updateRow
  split <;> rfl

/-- A row with a different identifier is untouched. -/
theorem updateRow_of_ne (np r : Property)
    (h : (r.property_id == np.property_id) = false) : updateRow np r = r := by
  unfold updateRow
  simp [h]

/-- A row with the matching identifier becomes the incoming property. -/
theorem updateRow_of_eq (np r : Property)
    (h : r.property_id = np.property_id) : updateRow np r = np := by
  unfold updateRow
  rw [if_pos (by simp [h]), h]

/-- Applying the update twice is the same as applying it once. -/
theorem updateRow_idem (np r : Property) :
    updateRow np (updateRow np r) = updateRow np r := by
  by_cases h : (r.property_id == np.property_id) = true
  · have he : r.property_id = np.property_id := by simpa using h
    rw [updateRow_of_eq np r he, updateRow_of_eq np np rfl]
  · have hf : (r.property_id == np.property_id) = false := by simpa using h
    rw [updateRow_of_ne np r hf, updateRow_of_ne np r hf]

/-- The update preserves the number of rows stored under every
identifier. -/
theorem idCount_map_update (l : List Property) (np : Property) (pid : String) :
    idCount (l.map (updateRow np)) pid = idCount l pid := by
  induction l with
  | nil => rfl
  | cons a t ih =>
    rw [List.map_cons]
    rw [idCount, List.filter_cons, updateRow_property_id]
    rw [idCount, List.filter_cons]
    split
    · simp only [List.length_cons]
      rw [idCount] at ih
      rw [idCount] at ih
      omega
    · exact ih

/-- After the update, the rows under the incoming identifier are the
previously matching rows, each replaced by the incoming property. -/
theorem filter_map_update (l : List Property) (np : Property) :
    (l.map (updateRow np)).filter (fun r => r.property_id == np.property_id) =
      (l.filter (fun r => r.property_id == np.property_id)).map
        (fun _ => np) := by
  induction l with
  | nil => rfl
  | cons a t ih =>
    rw [List.map_cons, List.filter_cons, List.filter_cons,
      updateRow_property_id]
    by_cases h : (a.property_id == np.property_id) = true
    · rw [if_pos (by simp [h]), if_pos (by simp [h]), List.map_cons, ih,
        updateRow_of_eq np a (by simpa using h)]
    · have hf : (a.property_id == np.property_id) = false := by simpa using h
      rw [if_neg (by simp [hf]), if_neg (by simp [hf]), ih]

/-- Updating a store none of whose rows match leaves it unchanged. -/
theorem map_update_of_any_false (l : List Property) (np : Property)
    (h : (l.any fun r => r.property_id == np.property_id) = false) :
    l.map (updateRow np) = l := by
  induction l with
  | nil => rfl
  | cons a t ih =>
    rw [List.any_cons, Bool.or_eq_false_iff] at h
    rw [List.map_cons, updateRow_of_ne np a h.1, ih h.2]

/-- Applying the update to a whole store twice equals applying it once. -/
theorem map_update_idem (l : List Property) (np : Property) :
    (l.map (updateRow np)).map (updateRow np) = l.map (updateRow np) := by
  induction l with
  | nil => rfl
  | cons a t ih =>
    rw [List.map_cons, List.map_cons, updateRow_idem, ih]

/-- Evaluation of `save_property` when a row with the identifier exists. -/
theorem save_property_of_any_true (l : List Property) (np : Property)
    (h : (l.any fun r => r.property_id == np.property_id) = true) :
    save_property l np = (l.map (updateRow np), true) := by
  unfold save_property
  rw [if_pos h]

/-- Evaluation of `save_property` when no row with the identifier exists. -/
theorem save_property_of_any_false (l : List Property) (np : Property)
    (h : (l.any fun r => r.property_id == np.property_id) = false) :
    save_property l np = (l ++ [np], true) := by
  unfold save_property
  rw [if_neg (by simp [h])]

/-- Claim C7: starting from a store holding at most one row under the
incoming identifier, an upsert leaves exactly one row under it, and a second
upsert with the same identifier (same or different data) inserts no
duplicate — the store size is unchanged, exactly one row remains, that row
equals the second write, and a second write of identical data leaves the
store exactly as after the first. -/
theorem claim7_upsert_property (store : List Property) (prop prop2 : Property)
    (hid : prop2.property_id = prop.property_id)
    (hcount : idCount store prop.property_id ≤ 1) :
    (save_property store prop).2 = true ∧
    idCount (save_property store prop).1 prop.property_id = 1 ∧
    (save_property (save_property store prop).1 prop2).1.length =
      (save_property store prop).1.length ∧
    idCount (save_property (save_property store prop).1 prop2).1
      prop.property_id = 1 ∧
    (save_property (save_property store prop).1 prop2).1.filter
      (fun r => r.property_id == prop.property_id) = [prop2] ∧
    (prop2 = prop →
      (save_property (save_property store prop).1 prop2).1 =
        (save_property store prop).1) := by
  have hc1 : idCount (save_property store prop).1 prop.property_id = 1 := by
    by_cases hany : (store.any fun r => r.property_id == prop.property_id) = true
    · rw [save_property_of_any_true store prop hany]
      have hge := one_le_length_filter _ store hany
      have hpres := idCount_map_update store prop prop.property_id
      rw [hpres]
      rw [idCount]
      exact le_antisymm (by rw [idCount] at hcount; exact hcount) hge
    · rw [save_property_of_any_false store prop (by simpa using hany)]
      have hnil := filter_nil_of_any_false
        (fun r => r.property_id == prop.property_id) store (by simpa using hany)
      rw [idCount, List.filter_append, hnil]
      simp
  have hret : (save_property store prop).2 = true := by
    by_cases hany : (store.any fun r => r.property_id == prop.property_id) = true
    · rw [save_property_of_any_true store prop hany]
    · rw [save_property_of_any_false store prop (by simpa using hany)]
  have hany1 : ((save_property store prop).1.any
      fun r => r.property_id == prop2.property_id) = true := by
    rw [hid]
    refine any_of_filter_length _ _ ?_
    rw [idCount] at hc1
    exact hc1.ge
  have hstep2 : (save_property (save_property store prop).1 prop2).1 =
      (save_property store prop).1.map (updateRow prop2) := by
    rw [save_property_of_any_true _ prop2 hany1]
  have hfil1 : ∃ x : Property, (save_property store prop).1.filter
      (fun r => r.property_id == prop.property_id) = [x] := by
    rw [idCount] at hc1
    exact List.length_eq_one.mp hc1
  refine ⟨hret, hc1, ?_, ?_, ?_, ?_⟩
  · rw [hstep2, List.length_map]
  · rw [hstep2, idCount_map_update, hc1]
  · rcases hfil1 with ⟨x, hx⟩
    rw [hstep2, ← hid, filter_map_update, hid, hx, List.map_cons]
    rfl
  · intro hsame
    subst hsame
    rw [hstep2]
    by_cases hany : (store.any fun r => r.property_id == prop2.property_id) = true
    · rw [save_property_of_any_true store prop2 hany]
      exact map_update_idem store prop2
    · rw [save_property_of_any_false store prop2 (by simpa using hany)]
      rw [List.map_append, map_update_of_any_false store prop2 (by simpa using hany),
        List.map_cons, updateRow_of_eq prop2 prop2 rfl]
      rfl

/-- Claim C7, witness: upserting `P7` twice into the empty store keeps a
single row equal to `P7`. -/
theorem claim7_upsert_property_witness :
    (save_property [] P7).2 = true ∧
    idCount (save_property [] P7).1 P7.property_id = 1 ∧
    (save_property (save_property [] P7).1 P7).1.length =
      (save_property [] P7).1.length ∧
    idCount (save_property (save_property [] P7).1 P7).1 P7.property_id = 1 ∧
    (save_property (save_property [] P7).1 P7).1.filter
      (fun r => r.property_id == P7.property_id) = [P7] ∧
    (save_property (save_property [] P7).1 P7).1 = (save_property [] P7).1 := by
  have h := claim7_upsert_property [] P7 P7 rfl (by decide)
  exact ⟨h.1, h.2.1, h.2.2.1, h.2.2.2.1, h.2.2.2.2.1, h.2.2.2.2.2 rfl⟩

/-- Claim C8: a serialized trace violating the sliding-window bound.  With
`requests_per_minute = 2`, calls entering at clock values 0, 0, 0, 60, 60
(each call enters no earlier than the previous call returned: the grants are
0, 0, 60, 60, 60) produce three grants at time 60 — three granted requests
inside the one-minute window `[60, 120)`, exceeding the quota of two.  The
third call sleeps until 60 but then resets the window and records its stale
entry time 0, which the fourth call prunes, so the fourth and fifth calls
are granted immediately. -/
theorem claim8_rate_limiter_window :
    runCalls 2 [] [0, 0, 0, 60, 60] = [0, 0, 60, 60, 60] ∧
    ((runCalls 2 [] [0, 0, 0, 60, 60]).filter
      (fun g => 60 ≤ g && g < 120)).length = 3 := by
  have h : runCalls 2 [] [0, 0, 0, 60, 60] = [0, 0, 60, 60, 60] := by
    norm_num [runCalls, wait_if_needed]
  refine ⟨h, ?_⟩
  rw [h]
  decide

/-- Unwinding of the retry loop when the calls at indices `i, ..., i+d-1`
raise and the call at index `i + d` succeeds within the retry budget. -/
theorem retryAux_ok {ε α : Type} (f : ℕ → Except ε α) (maxR : ℕ) (a : α)
    (e : ℕ → ε) : ∀ (d i : ℕ), i + d < maxR →
    (∀ j, i ≤ j → j < i + d → f j = Except.error (e j)) →
    f (i + d) = Except.ok a →
    retryAux maxR f (maxR - i) i = (some (Except.ok a), i + d + 1) := by
  intro d
  induction d with
  | zero =>
    intro i hlt _ hok
    obtain ⟨m, hm⟩ : ∃ m, maxR - i = m + 1 := ⟨maxR - i - 1, by omega⟩
    rw [hm]
    unfold retryAux
    rw [Nat.add_zero] at hok
    rw [hok]
  | succ d ih =>
    intro i hlt hfail hok
    obtain ⟨m, hm⟩ : ∃ m, maxR - i = m + 1 := ⟨maxR - i - 1, by omega⟩
    rw [hm]
    unfold retryAux
    simp only [hfail i (le_refl i) (by omega)]
    rw [if_neg (by omega)]
    have hm2 : m = maxR - (i + 1) := by omega
    rw [hm2]
    have hres := ih (i + 1) (by omega) (fun j h1 h2 => hfail j (by omega) (by omega))
      (by rw [show i + 1 + d = i + (d + 1) by omega]; exact hok)
    rw [hres]
    refine congrArg _ ?_
    omega

/-- Unwinding of the retry loop when every call up to the budget raises:
the loop re-raises the error of call `maxR - 1` after `maxR` invocations. -/
theorem retryAux_allfail {ε α : Type} (g : ℕ → Except ε α) (maxR : ℕ)
    (e : ℕ → ε) : ∀ (fuel i : ℕ), fuel = maxR - i → i < maxR →
    (∀ j, i ≤ j → j < maxR → g j = Except.error (e j)) →
    retryAux maxR g fuel i =
      ((some (Except.error (e (maxR - 1))) : Option (Except ε α)), maxR) := by
  intro fuel
  induction fuel with
  | zero =>
    intro i hfuel hlt _
    omega
  | succ m ih =>
    intro i hfuel hlt hfail
    unfold retryAux
    simp only [hfail i (le_refl i) hlt]
    by_cases hend : i + 1 ≥ maxR
    · rw [if_pos hend]
      have h1 : i = maxR - 1 := by omega
      rw [h1]
      refine congrArg _ ?_
      omega
    · rw [if_neg hend]
      exact ih (i + 1) (by omega) (by omega)
        (fun j hj1 hj2 => hfail j (by omega) hj2)

/-- Claim C9: for a function whose first `k` invocations raise and whose
`(k+1)`-st succeeds, with `k` below the retry cap, the wrapper returns the
success value after exactly `k + 1` invocations; for a function all of
whose invocations up to the cap raise, the wrapper re-raises the exception
of the last (`maxR`-th) invocation after exactly `maxR` invocations. -/
theorem claim9_retry {ε α : Type} (f g : ℕ → Except ε α) (maxR k : ℕ)
    (a : α) (e e2 : ℕ → ε) (hk : k < maxR)
    (hf : ∀ i, i < k → f i = Except.error (e i))
    (hok : f k = Except.ok a)
    (hg : ∀ i, i < maxR → g i = Except.error (e2 i)) :
    retry_on_failure maxR f = (some (Except.ok a), k + 1) ∧
    retry_on_failure maxR g = (some (Except.error (e2 (maxR - 1))), maxR) := by
  constructor
  · unfold retry_on_failure
    have hres := retryAux_ok f maxR a e k 0 (by omega)
      (fun j h1 h2 => hf j (by omega)) (by simpa using hok)
    simpa using hres
  · unfold retry_on_failure
    exact retryAux_allfail g maxR e2 maxR 0 (by omega) (by omega)
      (fun j h1 h2 => hg j h2)

/-- Claim C9, witness: `fOnce` fails once then returns 42, so the wrapper
with cap 3 returns 42 after 2 invocations; `fAlways` fails on every call,
so the wrapper re-raises the error of invocation 2 (message `"2"`) after 3
invocations. -/
theorem claim9_retry_witness :
    retry_on_failure 3 fOnce = (some (Except.ok 42), 2) ∧
    retry_on_failure 3 fAlways = (some (Except.error "2"), 3) := by
  have h := claim9_retry fOnce fAlways 3 1 42 (fun _ => "boom")
    (fun i => toString i) (by omega)
    (fun i hi => by
      match i, hi with
      | 0, _ => rfl)
    rfl
    (fun i hi => rfl)
  exact ⟨h.1, h.2⟩

/-- Claim C1: after a successful delivery for buyer `"B1"` of a
notification containing the match row `M1`, the match store is returned
unchanged and the row's `notified` flag still reads `"No"` — the dispatch
method contains no statement that updates `property_matches`, so delivered
matches are re-sent on every subsequent cycle instead of being marked
notified. -/
theorem claim1_notified_never_set :
    send_notifications [M1] ["B1"] (fun _ => true) = ([M1], 1) ∧
    M1.notified = "No" := by
  exact ⟨rfl, rfl⟩

end Wholesaling
